import Mathlib

/-!
Shallow embedding of the temporal-analysis components of the Gen-Eezes
repository:

* `src/temporal_analysis/temporal_analysis_handler.py`
  (class `TemporalAnalysisHandler`), and
* `src/analyze_real_trends.py` (class `RealTemporalAnalysisPipeline`).

Python floats are embedded as `ℚ` (the code performs only field
operations, comparisons, `abs`, `min`/`max`; the one square root, `rmse`,
is embedded by its square), Python ints as `ℤ`, counts as `ℕ`, and
`datetime` values as `ℕ` (only their total order is used, for sorting).
Python's `sorted(l, key=...)` is embedded as a stable insertion sort by
the key, and dictionaries keyed by strings as association lists.
-/

namespace GenEezes

/-- The key-comparison relation used by Python's `sorted(l, key=...)`. -/
def keyLE {α : Type} (key : α → ℕ) (a b : α) : Prop := key a ≤ key b

/-- Strict version of `keyLE`, used to show the sort is unique when keys
are pairwise distinct. -/
def keyLT {α : Type} (key : α → ℕ) (a b : α) : Prop := key a < key b

instance {α : Type} (key : α → ℕ) : DecidableRel (keyLE key) :=
  fun a b => inferInstanceAs (Decidable (key a ≤ key b))

instance {α : Type} (key : α → ℕ) : IsTotal α (keyLE key) :=
  ⟨fun a b => Nat.le_total (key a) (key b)⟩

instance {α : Type} (key : α → ℕ) : IsTrans α (keyLE key) :=
  ⟨fun _ _ _ hab hbc => Nat.le_trans hab hbc⟩

instance {α : Type} (key : α → ℕ) : IsAntisymm α (keyLT key) :=
  ⟨fun _ _ h h' => absurd (Nat.lt_trans h h') (Nat.lt_irrefl _)⟩

/-- Embedding of Python's `sorted(l, key=key)`: a stable sort by the key. -/
def sortOn {α : Type} (key : α → ℕ) (l : List α) : List α :=
  l.insertionSort (keyLE key)

theorem sortOn_perm {α : Type} (key : α → ℕ) (l : List α) :
    List.Perm (sortOn key l) l :=
  List.perm_insertionSort _ l

theorem sortOn_sorted {α : Type} (key : α → ℕ) (l : List α) :
    (sortOn key l).Sorted (keyLE key) :=
  List.sorted_insertionSort _ l

/-- When the keys of `l₁` are pairwise distinct, sorting by key is
invariant under permutation of the input: the sorted output is unique. -/
theorem sortOn_eq_of_perm {α : Type} (key : α → ℕ) {l₁ l₂ : List α}
    (hp : List.Perm l₁ l₂) (hn : (l₁.map key).Nodup) :
    sortOn key l₁ = sortOn key l₂ := by
  have hp' : List.Perm (sortOn key l₁) (sortOn key l₂) :=
    (sortOn_perm key l₁).trans (hp.trans (sortOn_perm key l₂).symm)
  have hn₁ : ((sortOn key l₁).map key).Nodup :=
    hn.perm ((sortOn_perm key l₁).map key).symm
  have hne₁ : (sortOn key l₁).Pairwise (fun a b => key a ≠ key b) :=
    (List.pairwise_map).1 hn₁
  have hne₂ : (sortOn key l₂).Pairwise (fun a b => key a ≠ key b) :=
    (List.pairwise_map).1 (hn₁.perm (hp'.map key))
  have hs₁ : (sortOn key l₁).Pairwise (keyLT key) :=
    ((sortOn_sorted key l₁).and hne₁).imp fun h => lt_of_le_of_ne h.1 h.2
  have hs₂ : (sortOn key l₂).Pairwise (keyLT key) :=
    ((sortOn_sorted key l₂).and hne₂).imp fun h => lt_of_le_of_ne h.1 h.2
  exact List.eq_of_perm_of_sorted hp' hs₁ hs₂

/-- `np.mean` over the embedded rationals (`l.sum / len(l)`; empty lists
do not occur on the paths the code takes). -/
def mean (l : List ℚ) : ℚ := l.sum / l.length

namespace TemporalAnalysisHandler

/-- `TemporalAnalysisHandler._calculate_percent_change` (lines 66-70):
zero-guarded percentage change. -/
def calculate_percent_change (old_value new_value : ℚ) : ℚ :=
  if old_value = 0 then (if 0 < new_value then 100 else 0)
  else ((new_value - old_value) / old_value) * 100

/-- `TemporalAnalysisHandler._detect_simple_trend` (lines 72-86): counts
strictly rising and strictly falling adjacent steps of `recent_values`
and reports a direction only when one kind of step is in the majority
AND accounts for at least `len - 1` steps (i.e. all of them). -/
def detect_simple_trend (recent_values : List ℤ) : String :=
  if recent_values.length < 2 then "STABLE"
  else
    let steps := recent_values.zip recent_values.tail
    let ups := steps.countP (fun p => decide (p.1 < p.2))
    let downs := steps.countP (fun p => decide (p.2 < p.1))
    if ups > downs ∧ ups ≥ recent_values.length - 1 then "RISING"
    else if downs > ups ∧ downs ≥ recent_values.length - 1 then "FALLING"
    else "STABLE"

/-- The per-keyword `shift_data` dict built by
`TemporalAnalysisHandler.analyze_keyword_shifts` (lines 46-59). -/
structure ShiftData where
  timeline : List (ℕ × ℤ)
  current_frequency : ℤ
  previous_frequency : ℤ
  change : ℤ
  percent_change : ℚ
  trend : String
  history : List ℤ
  dates : List ℕ
deriving DecidableEq

/-- Body of the per-keyword loop of `analyze_keyword_shifts`, applied to
the timeline already sorted by date (`sorted_timeline`): Python indices
`[-1]`, `[-2]` and the slice `[-3:]` become `getD (n-1)`, `getD (n-2)`
and `drop (n-3)`. -/
def shift_body (sorted_timeline : List (ℕ × ℤ)) : ShiftData :=
  let frequencies := sorted_timeline.map Prod.snd
  let n := frequencies.length
  { timeline := sorted_timeline
  , current_frequency := frequencies.getD (n - 1) 0
  , previous_frequency := frequencies.getD (n - 2) 0
  , change := frequencies.getD (n - 1) 0 - frequencies.getD (n - 2) 0
  , percent_change := calculate_percent_change
      ((frequencies.getD (n - 2) 0 : ℤ) : ℚ) ((frequencies.getD (n - 1) 0 : ℤ) : ℚ)
  , trend := detect_simple_trend (frequencies.drop (n - 3))
  , history := frequencies
  , dates := sorted_timeline.map Prod.fst }

/-- One keyword's entry of `analyze_keyword_shifts` (lines 36-61):
timelines shorter than 2 are skipped (`continue`), others are sorted by
date and summarised. -/
def analyze_keyword_timeline (timeline : List (ℕ × ℤ)) : Option ShiftData :=
  if timeline.length < 2 then none
  else some (shift_body (sortOn Prod.fst timeline))

/-- One observation of a cluster's state, as consumed by
`detect_cluster_drift` (source comment at lines 93-94): `size` is
required (`cluster['size']`), `std_dev` may be absent and is read with
`cluster.get('std_dev', 1.0)`; `date` is embedded as present (its only
use is the sort key and the `dates` echo). -/
structure ClusterState where
  date : ℕ
  size : ℤ
  std_dev : Option ℚ
deriving DecidableEq

/-- `TemporalAnalysisHandler._calculate_drift_magnitude`, local variable
`normalized_size_drift` (line 146): `abs(size_change) / max(1, size_change + 10) * 50`. -/
def normalized_size_drift (size_change : ℤ) : ℚ :=
  ((|size_change| : ℤ) : ℚ) / ((max 1 (size_change + 10) : ℤ) : ℚ) * 50

/-- `TemporalAnalysisHandler._calculate_drift_magnitude`, local variable
`normalized_std_drift` (line 147): `abs(std_dev_change) / 3 * 50`. -/
def normalized_std_drift (std_dev_change : ℚ) : ℚ :=
  |std_dev_change| / 3 * 50

/-- `TemporalAnalysisHandler._calculate_drift_magnitude` (lines 143-149). -/
def calculate_drift_magnitude (size_change : ℤ) (std_dev_change : ℚ) : ℚ :=
  min 100 (normalized_size_drift size_change + normalized_std_drift std_dev_change)

/-- `TemporalAnalysisHandler._classify_drift_severity` (lines 151-162). -/
def classify_drift_severity (magnitude : ℚ) : String :=
  if magnitude < 10 then "MINIMAL"
  else if magnitude < 25 then "LOW"
  else if magnitude < 50 then "MEDIUM"
  else if magnitude < 75 then "HIGH"
  else "EXTREME"

/-- The per-cluster dict built by
`TemporalAnalysisHandler.detect_cluster_drift` (lines 124-138). -/
structure DriftData where
  timeline : List ClusterState
  size_history : List ℤ
  std_dev_history : List ℚ
  dates : List ℕ
  current_size : ℤ
  previous_size : ℤ
  size_change : ℤ
  size_percent_change : ℚ
  avg_cohesion : ℚ
  std_dev_change : ℚ
  drift_magnitude : ℚ
  drift_severity : String
deriving DecidableEq

/-- Body of the per-cluster loop of `detect_cluster_drift` (lines
106-138), applied to the timeline already sorted by date. A missing
`std_dev` is read as `1.0` (`cluster.get('std_dev', 1.0)`, line 111).
`avg_cohesion` is `1 / np.mean(std_devs)`; when the mean is `0` numpy
yields `inf` (warnings are suppressed) where `ℚ` yields `0` — no claim
depends on that value. -/
def drift_body (sorted_timeline : List ClusterState) : DriftData :=
  let sizes := sorted_timeline.map (fun c => c.size)
  let std_devs := sorted_timeline.map (fun c => c.std_dev.getD 1)
  let n := sorted_timeline.length
  let size_change := sizes.getD (n - 1) 0 - sizes.getD (n - 2) 0
  let std_dev_change := std_devs.getD (n - 1) 0 - std_devs.getD (n - 2) 0
  let drift_magnitude := calculate_drift_magnitude size_change std_dev_change
  { timeline := sorted_timeline
  , size_history := sizes
  , std_dev_history := std_devs
  , dates := sorted_timeline.map (fun c => c.date)
  , current_size := sizes.getD (n - 1) 0
  , previous_size := sizes.getD (n - 2) 0
  , size_change := size_change
  , size_percent_change := calculate_percent_change
      ((sizes.getD (n - 2) 0 : ℤ) : ℚ) ((sizes.getD (n - 1) 0 : ℤ) : ℚ)
  , avg_cohesion := 1 / mean std_devs
  , std_dev_change := std_dev_change
  , drift_magnitude := drift_magnitude
  , drift_severity := classify_drift_severity drift_magnitude }

/-- One cluster's entry of `detect_cluster_drift` (lines 102-138):
timelines shorter than 2 are skipped (`continue`), others are sorted by
date and analysed. -/
def detect_cluster_drift_single (timeline : List ClusterState) : Option DriftData :=
  if timeline.length < 2 then none
  else some (drift_body (sortOn ClusterState.date timeline))

/-- The regressor inputs of `model_time_series` (line 179): the index
list `0, 1, ..., n-1` is used as the time axis. -/
def xIndices (n : ℕ) : List ℚ := (List.range n).map (fun i => (i : ℚ))

/-- The slope `sklearn.linear_model.LinearRegression` fits to
`(0..n-1, ys)` (line 186-190), in exact arithmetic: the ordinary
least-squares slope `Σ (x-x̄)(y-ȳ) / Σ (x-x̄)²`. -/
def regression_slope (ys : List ℚ) : ℚ :=
  let xs := xIndices ys.length
  (((xs.zip ys).map (fun p => (p.1 - mean xs) * (p.2 - mean ys))).sum) /
    ((xs.map (fun x => (x - mean xs) ^ 2)).sum)

/-- The fitted intercept (line 191): `ȳ - slope * x̄`. -/
def regression_intercept (ys : List ℚ) : ℚ :=
  mean ys - regression_slope ys * mean (xIndices ys.length)

/-- `model.predict(X)` (line 203): the fitted line at each index. -/
def regression_predictions (ys : List ℚ) : List ℚ :=
  (xIndices ys.length).map (fun x => regression_slope ys * x + regression_intercept ys)

/-- Residual sum of squares of the fit. -/
def ss_res (ys : List ℚ) : ℚ :=
  ((ys.zip (regression_predictions ys)).map (fun p => (p.1 - p.2) ^ 2)).sum

/-- Total sum of squares about the mean. -/
def ss_tot (ys : List ℚ) : ℚ :=
  (ys.map (fun y => (y - mean ys) ^ 2)).sum

/-- `model.score(X, y)` (line 192): sklearn's `r2_score` convention —
`1 - ss_res/ss_tot` when both are nonzero, `0` when only the denominator
`ss_tot` is zero, and `1` when `ss_res` is zero (a perfectly predicted
series, constant series included). -/
def r2_score (ys : List ℚ) : ℚ :=
  if ss_res ys = 0 then 1
  else if ss_tot ys = 0 then 0
  else 1 - ss_res ys / ss_tot ys

/-- The dict returned by `model_time_series` (lines 207-218). `rmse_sq`
embeds `rmse ** 2 = mean(residuals ** 2)`; the code's `rmse` is its
(irrational in general) square root, determined by it. -/
structure TimeSeriesModel where
  timeline : List (ℕ × ℚ)
  values : List ℚ
  slope : ℚ
  intercept : ℚ
  r_squared : ℚ
  trend_direction : String
  trend_strength : ℚ
  next_prediction : ℚ
  rmse_sq : ℚ
  model_quality : String
deriving DecidableEq

/-- Body of `model_time_series` (lines 177-218), applied to the
timeline already sorted by date. -/
def model_body (sorted_timeline : List (ℕ × ℚ)) : TimeSeriesModel :=
  let ys := sorted_timeline.map Prod.snd
  let slope := regression_slope ys
  let intercept := regression_intercept ys
  let r_squared := r2_score ys
  { timeline := sorted_timeline
  , values := ys
  , slope := slope
  , intercept := intercept
  , r_squared := r_squared
  , trend_direction :=
      if 0 < slope then "RISING" else if slope < 0 then "FALLING" else "STABLE"
  , trend_strength := min 1 (|slope| / max 1 (mean ys))
  , next_prediction := slope * (ys.length : ℚ) + intercept
  , rmse_sq := ss_res ys / (ys.length : ℚ)
  , model_quality :=
      if r_squared > 7 / 10 then "STRONG"
      else if r_squared > 2 / 5 then "MODERATE"
      else "WEAK" }

/-- `TemporalAnalysisHandler.model_time_series` (lines 164-218): fewer
than 2 points return the error dict `{'error': 'Insufficient data for
time series modeling'}` (line 175); otherwise the input is sorted by
date and modelled. -/
def model_time_series (metric_timeline : List (ℕ × ℚ)) : Except String TimeSeriesModel :=
  if metric_timeline.length < 2 then
    Except.error "Insufficient data for time series modeling"
  else Except.ok (model_body (sortOn Prod.fst metric_timeline))

/-- `TemporalAnalysisHandler._generate_trend_label` (lines 255-268). -/
def generate_trend_label (direction : String) (strength : ℚ) : String :=
  if direction = "RISING" then
    if strength > 7 / 10 then "STRONG RISING TREND" else "MODERATE RISING TREND"
  else if direction = "FALLING" then
    if strength > 7 / 10 then "STRONG FALLING TREND" else "MODERATE FALLING TREND"
  else "STABLE TREND"

/-- `TemporalAnalysisHandler._get_trend_emoji` (lines 270-277). -/
def get_trend_emoji (direction : String) : String :=
  if direction = "RISING" then "📈"
  else if direction = "FALLING" then "📉"
  else "→"

/-- The per-metric label dict built by `label_trends` (lines 239-248). -/
structure TrendLabel where
  metric : String
  direction : String
  strength : ℚ
  confidence : ℚ
  label_text : String
  emoji : String
  forecast : ℚ
  model_quality : String
deriving DecidableEq

/-- The label `label_trends` builds for one successfully modelled
metric (lines 239-248); every `.get` hits a present key there. -/
def label_of (metric_name : String) (m : TimeSeriesModel) : TrendLabel :=
  { metric := metric_name
  , direction := m.trend_direction
  , strength := m.trend_strength
  , confidence := min 1 m.r_squared
  , label_text := generate_trend_label m.trend_direction m.trend_strength
  , emoji := get_trend_emoji m.trend_direction
  , forecast := m.next_prediction
  , model_quality := m.model_quality }

/-- `TemporalAnalysisHandler.label_trends` (lines 220-253). The input
dict (metric name → `model_time_series` result) is an association list;
the `'timeline' in trend_data` test keeps exactly the successful model
results (an error dict has only the key `'error'`, a success dict always
has `'timeline'`), so error-marked entries are skipped. -/
def label_trends : List (String × Except String TimeSeriesModel) →
    List (String × TrendLabel)
  | [] => []
  | (_, Except.error _) :: rest => label_trends rest
  | (metric_name, Except.ok m) :: rest =>
      (metric_name, label_of metric_name m) :: label_trends rest

end TemporalAnalysisHandler

namespace RealTemporalAnalysisPipeline

/-- The per-keyword dict built by
`RealTemporalAnalysisPipeline.analyze_real_data` (lines 96-101). -/
structure RealShift where
  start_frequency : ℤ
  end_frequency : ℤ
  percent_change : ℚ
  trend_direction : String
deriving DecidableEq

/-- The inline direction policy of `analyze_real_data` (line 100):
`'RISING' if percent_change > 5 else ('FALLING' if percent_change < -5
else 'STABLE')`. -/
def real_trend_direction (percent_change : ℚ) : String :=
  if percent_change > 5 then "RISING"
  else if percent_change < -5 then "FALLING"
  else "STABLE"

/-- The per-keyword branch of `analyze_real_data` (lines 86-101):
`freqs` is the keyword's frequency list in snapshot (timestamp) order —
the Mongo query pre-sorts snapshots, so no sort happens here. Whole-span
comparison: first entry vs. last entry. -/
def analyze_keyword_real (freqs : List ℤ) : Option RealShift :=
  if freqs.length ≥ 2 then
    let first_freq := freqs.headD 0
    let last_freq := freqs.getLastD 0
    let percent_change : ℚ :=
      if 0 < first_freq then
        (((last_freq - first_freq : ℤ) : ℚ) / ((first_freq : ℤ) : ℚ)) * 100
      else if 0 < last_freq then 100 else 0
    some { start_frequency := first_freq
         , end_frequency := last_freq
         , percent_change := percent_change
         , trend_direction := real_trend_direction percent_change }
  else none

/-- The per-cluster dict built by `analyze_real_data` (lines 144-149). -/
structure RealClusterStats where
  size_change_percent : ℚ
  std_dev_change_percent : ℚ
  drift_magnitude : ℚ
  drift_severity : String
deriving DecidableEq

/-- The inline severity chain of `analyze_real_data` (lines 133-142). -/
def real_drift_severity (drift_magnitude : ℚ) : String :=
  if drift_magnitude < 10 then "MINIMAL"
  else if drift_magnitude < 25 then "LOW"
  else if drift_magnitude < 50 then "MEDIUM"
  else if drift_magnitude < 75 then "HIGH"
  else "EXTREME"

/-- The per-cluster branch of `analyze_real_data` (lines 123-149):
each timeline entry carries `(size, std_dev)` in snapshot order;
whole-span comparison of first vs. last entry, with an `else 0` guard
(not the handler's zero-guarded policy) on both percent changes. -/
def cluster_stats_real (timeline : List (ℤ × ℚ)) : Option RealClusterStats :=
  if timeline.length ≥ 2 then
    let sizes := timeline.map Prod.fst
    let std_devs := timeline.map Prod.snd
    let size_change : ℚ :=
      if 0 < sizes.headD 0 then
        (((sizes.getLastD 0 - sizes.headD 0 : ℤ) : ℚ) / ((sizes.headD 0 : ℤ) : ℚ)) * 100
      else 0
    let std_dev_change : ℚ :=
      if 0 < std_devs.headD 0 then
        ((std_devs.getLastD 0 - std_devs.headD 0) / std_devs.headD 0) * 100
      else 0
    let drift_magnitude := |size_change| + |std_dev_change|
    some { size_change_percent := size_change
         , std_dev_change_percent := std_dev_change
         , drift_magnitude := drift_magnitude
         , drift_severity := real_drift_severity drift_magnitude }
  else none

end RealTemporalAnalysisPipeline

open TemporalAnalysisHandler RealTemporalAnalysisPipeline

/-- Modelled from the claim's wording of `_detect_simple_trend` (pure
majority of monotonic steps, no further condition), for comparison with
the source's `detect_simple_trend`. -/
def majority_trend (recent_values : List ℤ) : String :=
  if recent_values.length < 2 then "STABLE"
  else
    let steps := recent_values.zip recent_values.tail
    let ups := steps.countP (fun p => decide (p.1 < p.2))
    let downs := steps.countP (fun p => decide (p.2 < p.1))
    if ups > downs then "RISING"
    else if downs > ups then "FALLING"
    else "STABLE"

/-- A list's adjacent-step pairs are its zip with its own tail; there
are `length - 1` of them. -/
theorem steps_length {α : Type} (l : List α) :
    (l.zip l.tail).length = l.length - 1 := by
  rw [List.length_zip, List.length_tail]
  exact min_eq_right (Nat.sub_le _ _)

/-- `Chain' R` is exactly `R` holding at every adjacent-step pair. -/
theorem chain'_iff_steps {α : Type} (R : α → α → Prop) :
    ∀ l : List α, l.Chain' R ↔ ∀ p ∈ l.zip l.tail, R p.1 p.2
  | [] => by simp
  | [a] => by simp
  | a :: b :: t => by
    rw [List.chain'_cons]
    have ih := chain'_iff_steps R (b :: t)
    simp only [List.tail_cons, List.zip_cons_cons, List.mem_cons] at ih ⊢
    constructor
    · rintro ⟨hab, ht⟩ p hp
      rcases hp with rfl | hp
      · exact hab
      · exact (ih.1 ht) p hp
    · intro h
      exact ⟨h (a, b) (Or.inl rfl), ih.2 fun p hp => h p (Or.inr hp)⟩

/-- Mean of a nonempty constant list. -/
theorem mean_const {ys : List ℚ} {c : ℚ} (hne : ys ≠ []) (h : ∀ y ∈ ys, y = c) :
    mean ys = c := by
  have hlen : ys.length ≠ 0 := fun h0 => hne (List.length_eq_zero.1 h0)
  have hsum : ys.sum = (ys.length : ℚ) * c := by
    conv_lhs => rw [(@List.eq_replicate_iff ℚ c ys.length ys).2 ⟨rfl, h⟩]
    rw [List.sum_replicate, nsmul_eq_mul]
  rw [mean, hsum, mul_comm, mul_div_assoc,
    div_self (Nat.cast_ne_zero.2 hlen), mul_one]

/-- The least-squares slope of a constant series is `0`. -/
theorem regression_slope_const {ys : List ℚ} {c : ℚ} (h : ∀ y ∈ ys, y = c) :
    regression_slope ys = 0 := by
  rcases eq_or_ne ys [] with rfl | hne
  · rw [regression_slope]
    simp [xIndices]
  · rw [regression_slope]
    have hmean := mean_const hne h
    rw [List.sum_eq_zero, zero_div]
    intro t ht
    obtain ⟨p, hp, rfl⟩ := List.mem_map.1 ht
    obtain ⟨x, y⟩ := p
    obtain ⟨-, hy⟩ := List.of_mem_zip hp
    rw [h y hy, hmean, sub_self, mul_zero]

/-- The fitted intercept of a constant series is the constant. -/
theorem regression_intercept_const {ys : List ℚ} {c : ℚ} (hne : ys ≠ [])
    (h : ∀ y ∈ ys, y = c) : regression_intercept ys = c := by
  rw [regression_intercept, regression_slope_const h, zero_mul, sub_zero,
    mean_const hne h]

/-- A constant series is predicted exactly: zero residual sum. -/
theorem ss_res_const {ys : List ℚ} {c : ℚ} (hne : ys ≠ [])
    (h : ∀ y ∈ ys, y = c) : ss_res ys = 0 := by
  rw [ss_res]
  apply List.sum_eq_zero
  intro t ht
  obtain ⟨p, hp, rfl⟩ := List.mem_map.1 ht
  obtain ⟨x, y⟩ := p
  obtain ⟨hx, hy⟩ := List.of_mem_zip hp
  have hy' : y = c := by
    rw [regression_predictions] at hy
    obtain ⟨t0, -, rfl⟩ := List.mem_map.1 hy
    rw [regression_slope_const h, zero_mul, zero_add,
      regression_intercept_const hne h]
  rw [h x hx, hy', sub_self]
  norm_num

/-- Keys of `label_trends` output come from the input keys. -/
theorem label_trends_keys_subset (ta : List (String × Except String TimeSeriesModel)) :
    ∀ x : String, x ∈ (label_trends ta).map Prod.fst → x ∈ ta.map Prod.fst := by
  induction ta with
  | nil => intro x hx; simp [label_trends] at hx
  | cons p rest ih =>
    obtain ⟨pname, res⟩ := p
    intro x hx
    cases res with
    | error e =>
      simp only [label_trends] at hx
      exact List.mem_cons.2 (Or.inr (ih x hx))
    | ok m =>
      simp only [label_trends, List.map_cons] at hx
      rw [List.map_cons]
      rcases List.mem_cons.1 hx with h | h
      · exact List.mem_cons.2 (Or.inl h)
      · exact List.mem_cons.2 (Or.inr (ih x h))

/-- A key carrying an error-marked result is absent from the labels,
when the (dictionary) keys are distinct. -/
theorem error_key_not_labeled (ta : List (String × Except String TimeSeriesModel)) :
    ∀ keyword e, (keyword, Except.error e) ∈ ta → (ta.map Prod.fst).Nodup →
      keyword ∉ (label_trends ta).map Prod.fst := by
  induction ta with
  | nil => intro keyword e hmem _; simp at hmem
  | cons p rest ih =>
    intro keyword e hmem hnd
    obtain ⟨pname, res⟩ := p
    rw [List.map_cons, List.nodup_cons] at hnd
    rcases List.mem_cons.1 hmem with heq | hmem'
    · injection heq with h1 h2
      subst h2
      simp only [label_trends]
      intro hx
      refine hnd.1 ?_
      rw [← h1]
      exact label_trends_keys_subset rest keyword hx
    · cases res with
      | error e2 =>
        simp only [label_trends]
        exact ih keyword e hmem' hnd.2
      | ok m =>
        simp only [label_trends, List.map_cons]
        intro hx
        rcases List.mem_cons.1 hx with h | h
        · refine hnd.1 ?_
          rw [← h]
          exact List.mem_map.2 ⟨(keyword, Except.error e), hmem', rfl⟩
        · exact ih keyword e hmem' hnd.2 h

/-- C1: for every keyword timeline of length ≥ 2, the keyword-shift
percent change is `(end - start) / start * 100` when the start frequency
is strictly positive, `100` when the start is `0` and the end positive,
and `0` when both are `0`; the handler's `_calculate_percent_change`
follows the same zero-guarded policy, so no division by zero occurs
(the zero denominator is tested away before dividing). -/
theorem keyword_percent_change_policy (freqs : List ℤ) (h2 : 2 ≤ freqs.length) :
    (∀ a b : ℚ, 0 < a → calculate_percent_change a b = ((b - a) / a) * 100) ∧
    (∀ b : ℚ, calculate_percent_change 0 b = if 0 < b then 100 else 0) ∧
    ∃ s : RealShift, analyze_keyword_real freqs = some s ∧
      s.start_frequency = freqs.headD 0 ∧
      s.end_frequency = freqs.getLastD 0 ∧
      (0 < s.start_frequency →
        s.percent_change =
          (((s.end_frequency : ℚ) - (s.start_frequency : ℚ)) / (s.start_frequency : ℚ)) * 100) ∧
      (s.start_frequency = 0 → 0 < s.end_frequency → s.percent_change = 100) ∧
      (s.start_frequency = 0 → s.end_frequency = 0 → s.percent_change = 0) := by
  refine ⟨?_, ?_, ?_⟩
  · intro a b ha
    rw [calculate_percent_change, if_neg (ne_of_gt ha)]
  · intro b
    rw [calculate_percent_change, if_pos rfl]
  · rw [analyze_keyword_real, if_pos h2]
    refine ⟨_, rfl, rfl, rfl, ?_, ?_, ?_⟩
    · intro h
      simp only at h ⊢
      rw [if_pos h]
      push_cast
      ring
    · intro h0 hpos
      simp only at h0 hpos ⊢
      rw [if_neg (by omega), if_pos hpos]
    · intro h0 hend
      simp only at h0 hend ⊢
      rw [if_neg (by omega), if_neg (by omega)]

/-- Witness for C1 at the concrete timeline `[0, 3]`. -/
theorem keyword_percent_change_policy_witness :
    (analyze_keyword_real [0, 3]).isSome = true := by
  obtain ⟨-, -, s, hs, -⟩ := keyword_percent_change_policy [0, 3] (by decide)
  rw [hs]
  rfl

/-- C2 counterexample: at `size_change = -9` the normalized size term is
`|-9| / max(1, -9 + 10) * 50 = 450`, far above the claimed 50-point cap,
and it alone saturates the drift magnitude at 100. -/
theorem drift_magnitude_term_not_capped :
    normalized_size_drift (-9) = 450 ∧
    ¬ normalized_size_drift (-9) ≤ 50 ∧
    calculate_drift_magnitude (-9) 0 = 100 := by
  have h : normalized_size_drift (-9) = 450 := by
    norm_num [normalized_size_drift]
  refine ⟨h, by rw [h]; norm_num, ?_⟩
  rw [calculate_drift_magnitude, h, normalized_std_drift]
  norm_num [min_def]

/-- C2 (amended): the step-mode drift magnitude equals
`min(100, 50·|Δsize|/max(1, Δsize+10) + 50·|Δstd|/3)` and always lies in
`[0, 100]`; but the two terms are not individually capped at 50 — that
cap holds for the size term only when the size change is nonnegative,
and for the dispersion term only when `|Δstd| ≤ 3`. -/
theorem drift_magnitude_formula_bounds (size_change : ℤ) (std_dev_change : ℚ) :
    calculate_drift_magnitude size_change std_dev_change =
      min 100 (|(size_change : ℚ)| / max 1 ((size_change : ℚ) + 10) * 50 +
        |std_dev_change| / 3 * 50) ∧
    0 ≤ calculate_drift_magnitude size_change std_dev_change ∧
    calculate_drift_magnitude size_change std_dev_change ≤ 100 ∧
    (0 ≤ size_change → normalized_size_drift size_change < 50) ∧
    (|std_dev_change| ≤ 3 → normalized_std_drift std_dev_change ≤ 50) := by
  have hden : (0 : ℚ) < ((max 1 (size_change + 10) : ℤ) : ℚ) := by
    have : (1 : ℤ) ≤ max 1 (size_change + 10) := le_max_left _ _
    exact_mod_cast lt_of_lt_of_le zero_lt_one this
  have hsize : 0 ≤ normalized_size_drift size_change := by
    rw [normalized_size_drift]
    have h1 : (0 : ℚ) ≤ ((|size_change| : ℤ) : ℚ) := by exact_mod_cast abs_nonneg size_change
    exact mul_nonneg (div_nonneg h1 hden.le) (by norm_num)
  have hstd : 0 ≤ normalized_std_drift std_dev_change := by
    rw [normalized_std_drift]
    exact mul_nonneg (div_nonneg (abs_nonneg _) (by norm_num)) (by norm_num)
  refine ⟨?_, ?_, ?_, ?_, ?_⟩
  · rw [calculate_drift_magnitude, normalized_size_drift, normalized_std_drift]
    push_cast
    rfl
  · exact le_min (by norm_num) (add_nonneg hsize hstd)
  · exact min_le_left _ _
  · intro hpos
    rw [normalized_size_drift]
    have habs : (|size_change| : ℤ) = size_change := abs_of_nonneg hpos
    have hmax : max 1 (size_change + 10) = size_change + 10 :=
      max_eq_right (by omega)
    rw [habs, hmax]
    have hden' : (0 : ℚ) < ((size_change + 10 : ℤ) : ℚ) := by exact_mod_cast (by omega : (0 : ℤ) < size_change + 10)
    have hlt : ((size_change : ℤ) : ℚ) / ((size_change + 10 : ℤ) : ℚ) < 1 := by
      rw [div_lt_one hden']
      exact_mod_cast (by omega : (size_change : ℤ) < size_change + 10)
    calc ((size_change : ℤ) : ℚ) / ((size_change + 10 : ℤ) : ℚ) * 50
        < 1 * 50 := by
          exact mul_lt_mul_of_pos_right hlt (by norm_num)
      _ = 50 := by norm_num
  · intro hle
    rw [normalized_std_drift]
    have h1 : |std_dev_change| / 3 ≤ 1 := by
      rw [div_le_one (by norm_num : (0 : ℚ) < 3)]
      exact hle
    calc |std_dev_change| / 3 * 50 ≤ 1 * 50 :=
        mul_le_mul_of_nonneg_right h1 (by norm_num)
      _ = 50 := by norm_num

/-- C4: both severity classifiers share the thresholds `<10 MINIMAL`,
`<25 LOW`, `<50 MEDIUM`, `<75 HIGH`, else `EXTREME`, every upper bound
strict; the claimed boundary values classify as stated, and the
whole-span (`analyze_real_data`) and step-mode (handler) classifiers
agree everywhere. -/
theorem drift_severity_thresholds (m : ℚ) :
    (m < 10 → classify_drift_severity m = "MINIMAL") ∧
    (10 ≤ m → m < 25 → classify_drift_severity m = "LOW") ∧
    (25 ≤ m → m < 50 → classify_drift_severity m = "MEDIUM") ∧
    (50 ≤ m → m < 75 → classify_drift_severity m = "HIGH") ∧
    (75 ≤ m → classify_drift_severity m = "EXTREME") ∧
    real_drift_severity m = classify_drift_severity m ∧
    classify_drift_severity (9999 / 1000) = "MINIMAL" ∧
    classify_drift_severity 10 = "LOW" ∧
    classify_drift_severity (24999 / 1000) = "LOW" ∧
    classify_drift_severity 25 = "MEDIUM" ∧
    classify_drift_severity (49999 / 1000) = "MEDIUM" ∧
    classify_drift_severity 50 = "HIGH" ∧
    classify_drift_severity (74999 / 1000) = "HIGH" ∧
    classify_drift_severity 75 = "EXTREME" := by
  refine ⟨?_, ?_, ?_, ?_, ?_, rfl, by norm_num [classify_drift_severity],
    by decide, by norm_num [classify_drift_severity], by decide,
    by norm_num [classify_drift_severity], by decide,
    by norm_num [classify_drift_severity], by decide⟩
  · intro h
    rw [classify_drift_severity, if_pos h]
  · intro h h'
    rw [classify_drift_severity, if_neg (not_lt.2 h), if_pos h']
  · intro h h'
    rw [classify_drift_severity, if_neg (not_lt.2 (by linarith)),
      if_neg (not_lt.2 h), if_pos h']
  · intro h h'
    rw [classify_drift_severity, if_neg (not_lt.2 (by linarith)),
      if_neg (not_lt.2 (by linarith)), if_neg (not_lt.2 h), if_pos h']
  · intro h
    rw [classify_drift_severity, if_neg (not_lt.2 (by linarith)),
      if_neg (not_lt.2 (by linarith)), if_neg (not_lt.2 (by linarith)),
      if_neg (not_lt.2 h)]

/-- C6: the whole-span keyword trend direction is `RISING` exactly above
`+5`, `FALLING` exactly below `-5`, `STABLE` on the closed band
`[-5, 5]` (so `5.0` and `-5.0` are `STABLE`, `5.01` is `RISING`,
`-5.01` is `FALLING`), and every keyword shift's stored
`trend_direction` is this function of its stored `percent_change`. -/
theorem keyword_trend_direction_policy (pc : ℚ) :
    (5 < pc → real_trend_direction pc = "RISING") ∧
    (pc < -5 → real_trend_direction pc = "FALLING") ∧
    (-5 ≤ pc → pc ≤ 5 → real_trend_direction pc = "STABLE") ∧
    real_trend_direction 5 = "STABLE" ∧
    real_trend_direction (501 / 100) = "RISING" ∧
    real_trend_direction (-5) = "STABLE" ∧
    real_trend_direction (-501 / 100) = "FALLING" ∧
    ∀ (freqs : List ℤ) (s : RealShift), analyze_keyword_real freqs = some s →
      s.trend_direction = real_trend_direction s.percent_change := by
  refine ⟨?_, ?_, ?_, by decide, by norm_num [real_trend_direction],
    by decide, by norm_num [real_trend_direction], ?_⟩
  · intro h
    rw [real_trend_direction, if_pos h]
  · intro h
    rw [real_trend_direction, if_neg (not_lt.2 (by linarith)), if_pos h]
  · intro h h'
    rw [real_trend_direction, if_neg (not_lt.2 h'), if_neg (not_lt.2 h)]
  · intro freqs s hs
    rw [analyze_keyword_real] at hs
    split at hs
    · cases hs
      rfl
    · exact absurd hs (by simp)

/-- C3 counterexample: in whole-span mode a cluster whose size history
starts at 0 and ends at 5 gets `size_change_percent = 0`, while the
handler's zero-guarded policy (claimed to be shared) yields `100`. -/
theorem whole_span_zero_start_not_guarded :
    (cluster_stats_real [((0 : ℤ), (1 : ℚ)), (5, 1)]).map
      RealClusterStats.size_change_percent = some 0 ∧
    calculate_percent_change 0 5 = 100 := by
  constructor
  · simp [cluster_stats_real]
  · rw [calculate_percent_change, if_pos rfl, if_pos (by norm_num)]

/-- C3 (amended): the step-mode detector applies the zero-guarded
percent-change policy to the last two sizes, but reports the std-dev
movement only as an absolute difference (no percent); the whole-span
pipeline computes both percents with the plain ratio when the first
value is positive and returns `0` whenever the first value is `≤ 0`,
regardless of the final value — not the zero-guarded policy. -/
theorem cluster_percent_change_modes (tl : List ClusterState) (h2 : 2 ≤ tl.length)
    (timeline : List (ℤ × ℚ)) (h2' : 2 ≤ timeline.length) :
    (∃ d : DriftData, detect_cluster_drift_single tl = some d ∧
      d.size_percent_change =
        calculate_percent_change ((d.previous_size : ℤ) : ℚ) ((d.current_size : ℤ) : ℚ) ∧
      d.std_dev_change =
        d.std_dev_history.getD (d.timeline.length - 1) 0 -
          d.std_dev_history.getD (d.timeline.length - 2) 0) ∧
    (∃ s : RealClusterStats, cluster_stats_real timeline = some s ∧
      (0 < (timeline.map Prod.fst).headD 0 →
        s.size_change_percent =
          (((timeline.map Prod.fst).getLastD 0 - (timeline.map Prod.fst).headD 0 : ℤ) : ℚ) /
            (((timeline.map Prod.fst).headD 0 : ℤ) : ℚ) * 100) ∧
      ((timeline.map Prod.fst).headD 0 ≤ 0 → s.size_change_percent = 0) ∧
      (0 < (timeline.map Prod.snd).headD 0 →
        s.std_dev_change_percent =
          ((timeline.map Prod.snd).getLastD 0 - (timeline.map Prod.snd).headD 0) /
            (timeline.map Prod.snd).headD 0 * 100) ∧
      ((timeline.map Prod.snd).headD 0 ≤ 0 → s.std_dev_change_percent = 0)) := by
  constructor
  · rw [detect_cluster_drift_single, if_neg (by omega)]
    exact ⟨drift_body (sortOn ClusterState.date tl), rfl, rfl, rfl⟩
  · rw [cluster_stats_real, if_pos h2']
    refine ⟨_, rfl, ?_, ?_, ?_, ?_⟩
    · intro h
      simp only at h ⊢
      rw [if_pos h]
    · intro h
      simp only at h ⊢
      rw [if_neg (not_lt.2 h)]
    · intro h
      simp only at h ⊢
      rw [if_pos h]
    · intro h
      simp only at h ⊢
      rw [if_neg (not_lt.2 h)]

/-- Witness for C3's amended theorem at two concrete two-entry
timelines. -/
theorem cluster_percent_change_modes_witness :
    (detect_cluster_drift_single [⟨0, 3, some 1⟩, ⟨1, 4, some 1⟩]).isSome = true ∧
    (cluster_stats_real [((3 : ℤ), (1 : ℚ)), (4, 1)]).isSome = true := by
  obtain ⟨⟨d, hd, -, -⟩, s, hs, -, -, -, -⟩ :=
    cluster_percent_change_modes [⟨0, 3, some 1⟩, ⟨1, 4, some 1⟩] (by decide)
      [(3, 1), (4, 1)] (by decide)
  exact ⟨by rw [hd]; rfl, by rw [hs]; rfl⟩

/-- C5 counterexample: on the constant series `[5, 5, 5, 5]` the model
reports `r_squared = 1` and `model_quality = STRONG` (sklearn scores a
perfectly predicted constant series as 1), not the claimed `r_squared =
0` and `WEAK`. -/
theorem constant_series_r_squared_one :
    (model_time_series [(0, 5), (1, 5), (2, 5), (3, 5)]).map
      (fun m => (m.r_squared, m.model_quality)) = Except.ok ((1 : ℚ), "STRONG") := by
  have hsort : sortOn Prod.fst ([(0, 5), (1, 5), (2, 5), (3, 5)] : List (ℕ × ℚ)) =
      [(0, 5), (1, 5), (2, 5), (3, 5)] := by rfl
  rw [model_time_series, if_neg (by decide), hsort]
  have hys : ∀ y ∈ ([(0, 5), (1, 5), (2, 5), (3, 5)] : List (ℕ × ℚ)).map Prod.snd,
      y = 5 := by
    intro y hy
    simp only [List.map_cons, List.map_nil, List.mem_cons,
      List.not_mem_nil, or_false] at hy
    rcases hy with rfl | rfl | rfl | rfl <;> rfl
  have hne : ([(0, 5), (1, 5), (2, 5), (3, 5)] : List (ℕ × ℚ)).map Prod.snd ≠ [] := by
    simp
  have hr : r2_score (([(0, 5), (1, 5), (2, 5), (3, 5)] : List (ℕ × ℚ)).map Prod.snd) = 1 := by
    rw [r2_score, if_pos (ss_res_const hne hys)]
  simp only [Except.map, model_body]
  rw [hr]
  norm_num

/-- C5 (amended): on every constant input series of length ≥ 2 the
modeler does not fail: it returns `slope = 0` and
`trend_direction = STABLE` as claimed, but `r_squared = 1` (sklearn's
convention for a perfectly predicted constant series, not 0) and hence
`model_quality = STRONG` (not `WEAK`). -/
theorem constant_series_model (l : List (ℕ × ℚ)) (c : ℚ)
    (h2 : 2 ≤ l.length) (hc : ∀ p ∈ l, p.2 = c) :
    ∃ m : TimeSeriesModel, model_time_series l = Except.ok m ∧
      m.slope = 0 ∧ m.trend_direction = "STABLE" ∧ m.r_squared = 1 ∧
      m.model_quality = "STRONG" := by
  rw [model_time_series, if_neg (by omega)]
  have hys : ∀ y ∈ (sortOn Prod.fst l).map Prod.snd, y = c := by
    intro y hy
    obtain ⟨p, hp, rfl⟩ := List.mem_map.1 hy
    exact hc p ((sortOn_perm Prod.fst l).mem_iff.1 hp)
  have hlen : ((sortOn Prod.fst l).map Prod.snd).length = l.length := by
    rw [List.length_map]
    exact (sortOn_perm Prod.fst l).length_eq
  have hne : (sortOn Prod.fst l).map Prod.snd ≠ [] := by
    intro hcon
    rw [hcon] at hlen
    simp only [List.length_nil] at hlen
    omega
  have hr : r2_score ((sortOn Prod.fst l).map Prod.snd) = 1 := by
    rw [r2_score, if_pos (ss_res_const hne hys)]
  refine ⟨model_body (sortOn Prod.fst l), rfl, ?_, ?_, ?_, ?_⟩
  · simp only [model_body]
    exact regression_slope_const hys
  · simp only [model_body]
    rw [regression_slope_const hys]
    norm_num
  · simp only [model_body]
    exact hr
  · simp only [model_body]
    rw [hr]
    norm_num

/-- Witness for C5's amended theorem at the constant series
`[5, 5, 5, 5]` of the spec's example. -/
theorem constant_series_model_witness :
    (model_time_series [(0, 5), (1, 5), (2, 5), (3, 5)]).isOk = true := by
  obtain ⟨m, hm, -⟩ :=
    constant_series_model [(0, 5), (1, 5), (2, 5), (3, 5)] 5 (by decide)
      (by intro p hp
          simp only [List.mem_cons, List.not_mem_nil, or_false] at hp
          rcases hp with rfl | rfl | rfl | rfl <;> rfl)
  rw [hm]
  rfl

/-- C7 counterexample: on `[1, 2, 2]` the rising steps (one) outnumber
the falling steps (none), so the claimed majority rule says `RISING`,
but the code returns `STABLE` (the extra `ups >= len - 1` condition
fails). -/
theorem simple_trend_not_majority :
    majority_trend [1, 2, 2] = "RISING" ∧
    detect_simple_trend [1, 2, 2] = "STABLE" := by decide

/-- C7 (amended): over the trailing window the code does not use a pure
majority: it answers `RISING` exactly when there are at least 2 points
and every adjacent step strictly rises, `FALLING` exactly when every
adjacent step strictly falls, and `STABLE` otherwise — on ties, on any
mixed or flat run, and on fewer than 2 points. -/
theorem simple_trend_strict_run (l : List ℤ) :
    (detect_simple_trend l = "RISING" ↔ 2 ≤ l.length ∧ l.Chain' (fun a b => a < b)) ∧
    (detect_simple_trend l = "FALLING" ↔ 2 ≤ l.length ∧ l.Chain' (fun a b => b < a)) ∧
    (l.length < 2 → detect_simple_trend l = "STABLE") := by
  have heq : detect_simple_trend l =
      if l.length < 2 then "STABLE"
      else
        if (l.zip l.tail).countP (fun p => decide (p.1 < p.2)) >
              (l.zip l.tail).countP (fun p => decide (p.2 < p.1)) ∧
            (l.zip l.tail).countP (fun p => decide (p.1 < p.2)) ≥ l.length - 1 then
          "RISING"
        else
          if (l.zip l.tail).countP (fun p => decide (p.2 < p.1)) >
                (l.zip l.tail).countP (fun p => decide (p.1 < p.2)) ∧
              (l.zip l.tail).countP (fun p => decide (p.2 < p.1)) ≥ l.length - 1 then
            "FALLING"
          else "STABLE" := rfl
  by_cases hlen : l.length < 2
  · rw [heq, if_pos hlen]
    refine ⟨⟨fun h => absurd h (by decide), fun h => absurd hlen (by omega)⟩,
      ⟨fun h => absurd h (by decide), fun h => absurd hlen (by omega)⟩,
      fun _ => rfl⟩
  · rw [heq, if_neg hlen]
    have hslen : (l.zip l.tail).length = l.length - 1 := steps_length l
    have hub : (l.zip l.tail).countP (fun p => decide (p.1 < p.2)) ≤ l.length - 1 := by
      rw [← hslen]
      exact List.countP_le_length _
    have hdb : (l.zip l.tail).countP (fun p => decide (p.2 < p.1)) ≤ l.length - 1 := by
      rw [← hslen]
      exact List.countP_le_length _
    refine ⟨⟨?_, ?_⟩, ⟨?_, ?_⟩, fun h => absurd h hlen⟩
    · intro h
      refine ⟨not_lt.1 hlen, ?_⟩
      by_cases hc : (l.zip l.tail).countP (fun p => decide (p.1 < p.2)) >
            (l.zip l.tail).countP (fun p => decide (p.2 < p.1)) ∧
          (l.zip l.tail).countP (fun p => decide (p.1 < p.2)) ≥ l.length - 1
      · have hall : ∀ p ∈ l.zip l.tail, (fun p : ℤ × ℤ => decide (p.1 < p.2)) p = true := by
          apply List.countP_eq_length.1
          rw [hslen]
          omega
        rw [chain'_iff_steps]
        intro p hp
        simpa using hall p hp
      · rw [if_neg hc] at h
        split_ifs at h
        · exact absurd h (by decide)
        · exact absurd h (by decide)
    · rintro ⟨h2, hchain⟩
      have hall : ∀ p ∈ l.zip l.tail, p.1 < p.2 :=
        (chain'_iff_steps (fun a b : ℤ => a < b) l).1 hchain
      have hupseq : (l.zip l.tail).countP (fun p => decide (p.1 < p.2)) =
          (l.zip l.tail).length :=
        List.countP_eq_length.2 fun p hp => decide_eq_true (hall p hp)
      have hdowns0 : (l.zip l.tail).countP (fun p => decide (p.2 < p.1)) = 0 := by
        rw [List.countP_eq_zero]
        intro p hp
        simpa using not_lt.2 (le_of_lt (hall p hp))
      rw [if_pos ⟨by omega, by omega⟩]
    · intro h
      refine ⟨not_lt.1 hlen, ?_⟩
      by_cases hc : (l.zip l.tail).countP (fun p => decide (p.1 < p.2)) >
            (l.zip l.tail).countP (fun p => decide (p.2 < p.1)) ∧
          (l.zip l.tail).countP (fun p => decide (p.1 < p.2)) ≥ l.length - 1
      · rw [if_pos hc] at h
        exact absurd h (by decide)
      · rw [if_neg hc] at h
        by_cases hc' : (l.zip l.tail).countP (fun p => decide (p.2 < p.1)) >
              (l.zip l.tail).countP (fun p => decide (p.1 < p.2)) ∧
            (l.zip l.tail).countP (fun p => decide (p.2 < p.1)) ≥ l.length - 1
        · have hall : ∀ p ∈ l.zip l.tail, (fun p : ℤ × ℤ => decide (p.2 < p.1)) p = true := by
            apply List.countP_eq_length.1
            rw [hslen]
            omega
          rw [chain'_iff_steps]
          intro p hp
          simpa using hall p hp
        · rw [if_neg hc'] at h
          exact absurd h (by decide)
    · rintro ⟨h2, hchain⟩
      have hall : ∀ p ∈ l.zip l.tail, p.2 < p.1 :=
        (chain'_iff_steps (fun a b : ℤ => b < a) l).1 hchain
      have hdownseq : (l.zip l.tail).countP (fun p => decide (p.2 < p.1)) =
          (l.zip l.tail).length :=
        List.countP_eq_length.2 fun p hp => decide_eq_true (hall p hp)
      have hups0 : (l.zip l.tail).countP (fun p => decide (p.1 < p.2)) = 0 := by
        rw [List.countP_eq_zero]
        intro p hp
        simpa using not_lt.2 (le_of_lt (hall p hp))
      rw [if_neg (by omega), if_pos ⟨by omega, by omega⟩]

/-- C8: a sub-2-point input to the modeler yields the error marker
rather than an exception, and a metric whose result is error-marked is
absent from the labeler's output (its key does not appear at all). -/
theorem short_input_error_and_skip (l : List (ℕ × ℚ)) (hl : l.length < 2)
    (ta : List (String × Except String TimeSeriesModel)) (keyword e : String)
    (hmem : (keyword, Except.error e) ∈ ta) (hnd : (ta.map Prod.fst).Nodup) :
    model_time_series l = Except.error "Insufficient data for time series modeling" ∧
    keyword ∉ (label_trends ta).map Prod.fst :=
  ⟨by rw [model_time_series, if_pos hl], error_key_not_labeled ta keyword e hmem hnd⟩

/-- Witness for C8 at a one-point series and a one-entry error map. -/
theorem short_input_error_and_skip_witness :
    model_time_series [((0 : ℕ), (1 : ℚ))] =
      Except.error "Insufficient data for time series modeling" ∧
    "papers" ∉ (label_trends
      [("papers", Except.error "Insufficient data for time series modeling")]).map
        Prod.fst :=
  short_input_error_and_skip [(0, 1)] (by decide)
    [("papers", Except.error "Insufficient data for time series modeling")]
    "papers" "Insufficient data for time series modeling" (by simp) (by simp)

/-- C9: with pairwise-distinct timestamps both analyses are invariant
under permutation of the input timeline — the input is sorted by
timestamp before anything else is computed, and sorting by a duplicate
free key is permutation-invariant. -/
theorem analysis_permutation_invariant
    (l₁ l₂ : List (ℕ × ℚ)) (hp : List.Perm l₁ l₂) (hn : (l₁.map Prod.fst).Nodup)
    (t₁ t₂ : List (ℕ × ℤ)) (hq : List.Perm t₁ t₂) (hm : (t₁.map Prod.fst).Nodup) :
    model_time_series l₁ = model_time_series l₂ ∧
    analyze_keyword_timeline t₁ = analyze_keyword_timeline t₂ := by
  constructor
  · rw [model_time_series, model_time_series, hp.length_eq,
      sortOn_eq_of_perm Prod.fst hp hn]
  · rw [analyze_keyword_timeline, analyze_keyword_timeline, hq.length_eq,
      sortOn_eq_of_perm Prod.fst hq hm]

/-- Witness for C9 at a transposed two-point timeline. -/
theorem analysis_permutation_invariant_witness :
    model_time_series [(1, (2 : ℚ)), (0, 1)] = model_time_series [(0, 1), (1, 2)] ∧
    analyze_keyword_timeline [(1, (9 : ℤ)), (0, 4)] =
      analyze_keyword_timeline [(0, 4), (1, 9)] :=
  analysis_permutation_invariant [(1, 2), (0, 1)] [(0, 1), (1, 2)]
    (List.Perm.swap (0, 1) (1, 2) []) (by decide)
    [(1, 9), (0, 4)] [(0, 4), (1, 9)] (List.Perm.swap (0, 4) (1, 9) []) (by decide)

/-- C10: an observation lacking `std_dev` is silently read as `1.0`
(`cluster.get('std_dev', 1.0)`) and the drift computation completes
normally — the only way a timeline is skipped is being shorter than 2
entries, so a missing `std_dev` is never reported as an error. -/
theorem missing_std_dev_defaulted (tl : List ClusterState) (h2 : 2 ≤ tl.length) :
    ∃ d : DriftData, detect_cluster_drift_single tl = some d ∧
      d.std_dev_history = (sortOn ClusterState.date tl).map (fun c => c.std_dev.getD 1) ∧
      ∀ c ∈ tl, c.std_dev = none → (1 : ℚ) ∈ d.std_dev_history := by
  rw [detect_cluster_drift_single, if_neg (by omega)]
  refine ⟨drift_body (sortOn ClusterState.date tl), rfl, rfl, ?_⟩
  intro c hc hnone
  have hc' : c ∈ sortOn ClusterState.date tl :=
    (sortOn_perm ClusterState.date tl).mem_iff.2 hc
  exact List.mem_map.2 ⟨c, hc', by rw [hnone]; rfl⟩

/-- Witness for C10 at a timeline whose first observation lacks
`std_dev`. -/
theorem missing_std_dev_defaulted_witness :
    (detect_cluster_drift_single [⟨1, 10, none⟩, ⟨2, 12, some 2⟩]).isSome = true := by
  obtain ⟨d, hd, -, -⟩ :=
    missing_std_dev_defaulted [⟨1, 10, none⟩, ⟨2, 12, some 2⟩] (by decide)
  rw [hd]
  rfl

end GenEezes
